import Mathlib

/-!
Shallow embedding of the OAuth relay worker in src/src/index.ts
(framer-hubspot-api).  The single request handler is translated branch by
branch; the external collaborators (the ephemeral key-value store, the
provider token endpoint, the random id generator and the HTML template
helper) are modelled as explicit inputs and an effect trace, so that the
store interactions and upstream calls of each request become observable
values that theorems can talk about.
-/

namespace FramerHubspot

/-- JS String.prototype.startsWith, modelled over the character list of the
string so that it evaluates by kernel reduction. -/
def startsWith (s pre : String) : Bool :=
  List.isPrefixOf pre.data s.data

/-- One entry of the ephemeral key-value store (env.hubspotOAuthStore):
key, value, and the expirationTtl in seconds recorded at put time. -/
structure Entry where
  key : String
  value : String
  ttl : Option Nat
deriving Repr, DecidableEq

/-- The key-value store contents, most recent put first. -/
abbrev Store := List Entry

/-- Lookup of a key: value and recorded ttl of the most recent put. -/
def storeFind : Store → String → Option (String × Option Nat)
  | [], _ => none
  | e :: rest, k => if e.key == k then some (e.value, e.ttl) else storeFind rest k

/-- store.get(key): the value of the most recent put, or none. -/
def storeGet (st : Store) (k : String) : Option String :=
  (storeFind st k).map Prod.fst

/-- store.put(key, value, expirationTtl): overwrites by shadowing. -/
def storePut (st : Store) (k v : String) (ttl : Option Nat) : Store :=
  { key := k, value := v, ttl := ttl } :: st

/-- store.delete(key): removes every entry for the key. -/
def storeDelete : Store → String → Store
  | [], _ => []
  | e :: rest, k => if e.key == k then storeDelete rest k else e :: storeDelete rest k

/-- The environment bindings consumed by the worker (wrangler Env). -/
structure Env where
  CLIENT_ID : String
  CLIENT_SECRET : String
  REDIRECT_URI : String
  SCOPE : String
  AUTHORIZE_ENDPOINT : String
  TOKEN_ENDPOINT : String
  PLUGIN_URI : String
deriving Repr, DecidableEq

/-- JSON values, used for the parsed body of the provider token response. -/
inductive Json where
  | null : Json
  | bool : Bool → Json
  | num : Int → Json
  | str : String → Json
  | arr : List Json → Json
  | obj : List (String × Json) → Json
deriving Repr

/-- Escaping of quote and backslash inside a JSON string literal. -/
def jsonEscape (s : String) : String :=
  String.mk (s.data.foldr
    (fun c acc =>
      if c == '"' then '\\' :: '"' :: acc
      else if c == '\\' then '\\' :: '\\' :: acc
      else c :: acc) [])

mutual

/-- JSON.stringify on the modelled JSON values. -/
def Json.stringify : Json → String
  | .null => "null"
  | .bool b => cond b "true" "false"
  | .num n => toString n
  | .str s => "\"" ++ jsonEscape s ++ "\""
  | .arr xs => "[" ++ Json.stringifyList xs ++ "]"
  | .obj fs => "\x7b" ++ Json.stringifyFields fs ++ "\x7d"

/-- Comma-separated serialization of a JSON array body. -/
def Json.stringifyList : List Json → String
  | [] => ""
  | [x] => Json.stringify x
  | x :: y :: xs => Json.stringify x ++ "," ++ Json.stringifyList (y :: xs)

/-- Comma-separated serialization of the fields of a JSON object. -/
def Json.stringifyFields : List (String × Json) → String
  | [] => ""
  | [(k, v)] => "\"" ++ jsonEscape k ++ "\":" ++ Json.stringify v
  | (k, v) :: f :: fs =>
      "\"" ++ jsonEscape k ++ "\":" ++ Json.stringify v ++ "," ++ Json.stringifyFields (f :: fs)

end

/-- Uppercase hexadecimal digit, for percent escapes. -/
def hexDigit (n : Nat) : Char :=
  if n < 10 then Char.ofNat (48 + n) else Char.ofNat (55 + n)

/-- URLSearchParams serialization of one character: alphanumerics and
* - . _ are kept, space becomes +, anything else is percent-escaped
(modelled for the ASCII range). -/
def formEncodeChar (c : Char) : List Char :=
  if c.isAlphanum || c == '*' || c == '-' || c == '.' || c == '_' then [c]
  else if c == ' ' then ['+']
  else ['%', hexDigit (c.toNat / 16 % 16), hexDigit (c.toNat % 16)]

/-- URLSearchParams serialization of one component. -/
def formEncode (s : String) : String :=
  String.mk (s.data.foldr (fun c acc => formEncodeChar c ++ acc) [])

/-- URLSearchParams.toString on an ordered list of key-value pairs. -/
def renderQuery (ps : List (String × String)) : String :=
  String.intercalate "&" (ps.map (fun p => formEncode p.1 ++ "=" ++ formEncode p.2))

/-- An inbound request, after URL parsing: method, URL pathname, and the
ordered query parameters. -/
structure Request where
  method : String
  pathname : String
  searchParams : List (String × String)
deriving Repr, DecidableEq

/-- requestUrl.searchParams.get(key): first value for the key, or none. -/
def queryGet (ps : List (String × String)) (k : String) : Option String :=
  (ps.find? (fun p => p.1 == k)).map Prod.snd

/-- JS falsiness of a string-or-null value: null and the empty string are
falsy; used for every `!x` guard in the handler. -/
def isFalsy : Option String → Bool
  | none => true
  | some s => s == ""

/-- The provider token endpoint response: HTTP status, statusText (the
reason phrase), and the body as parsed by response.json() — none when the
body is not valid JSON, in which case json() rejects. -/
structure UpstreamResponse where
  status : Nat
  statusText : String
  body : Option Json
deriving Repr

/-- Modelled from the spec: the Handle Generator (generateRandomId, whose
source file is not under src/) produces unpredictable, collision-resistant
identifiers with no inputs and no side effects.  Its two outputs per
initiation, and the single provider token-endpoint response a request can
trigger, are supplied as oracle inputs to the handler. -/
structure World where
  freshReadKey : String
  freshWriteKey : String
  tokenResponse : UpstreamResponse
deriving Repr

/-- Observable side effects of one request, in program order: the three
store operations and the form-encoded POST to the provider. -/
inductive Effect where
  | get : String → Effect
  | put : String → String → Option Nat → Effect
  | delete : String → Effect
  | providerPOST : String → List (String × String) → Effect
deriving Repr, DecidableEq

/-- True exactly on store operations (get, put, delete). -/
def Effect.isStoreOp : Effect → Bool
  | .get _ => true
  | .put _ _ _ => true
  | .delete _ => true
  | .providerPOST _ _ => false

/-- An HTTP response: status, optional body, and headers in order. -/
structure Response where
  status : Nat
  body : Option String
  headers : List (String × String)
deriving Repr, DecidableEq

/-- Result of one run of the handler: the outcome (a response, or a thrown
error carried as its message), the final store, and the effect trace. -/
structure HandlerResult where
  outcome : Except String Response
  store : Store
  trace : List Effect
deriving Repr

/-- The CORS header attached to plugin-facing responses. -/
def corsHeader (env : Env) : String × String :=
  ("Access-Control-Allow-Origin", env.PLUGIN_URI)

/-- Modelled from the spec: getHTMLTemplate (its source file is not under
src/) renders the static confirmation page around the given message;
treated as an opaque wrapper. -/
def getHTMLTemplate (message : String) : String :=
  "<html>" ++ message ++ "</html>"

/-- The query parameters appended to AUTHORIZE_ENDPOINT on initiation. -/
def authorizeParams (env : Env) (writeKey : String) : List (String × String) :=
  [("client_id", env.CLIENT_ID),
   ("redirect_uri", env.REDIRECT_URI),
   ("scope", env.SCOPE),
   ("state", writeKey)]

/-- The authorization URL: AUTHORIZE_ENDPOINT with its search set to the
serialized authorize params. -/
def authorizeUrl (env : Env) (writeKey : String) : String :=
  env.AUTHORIZE_ENDPOINT ++ "?" ++ renderQuery (authorizeParams env writeKey)

/-- POST /auth/authorize: generate readKey and writeKey, store
readKey:writeKey with a 60 second ttl, and answer with the authorize URL
and the readKey as JSON. -/
def authorizeBranch (env : Env) (w : World) (st : Store) : HandlerResult :=
  let readKey := w.freshReadKey
  let writeKey := w.freshWriteKey
  let responseBody := Json.stringify (Json.obj
    [("url", Json.str (authorizeUrl env writeKey)), ("readKey", Json.str readKey)])
  { outcome := .ok
      { status := 200
        body := some responseBody
        headers := [("Content-Type", "application/json"), corsHeader env] }
    store := storePut st ("readKey:" ++ writeKey) readKey (some 60)
    trace := [Effect.put ("readKey:" ++ writeKey) readKey (some 60)] }

/-- The form body POSTed to TOKEN_ENDPOINT during the callback exchange. -/
def exchangeProof (env : Env) (authorizationCode : String) : List (String × String) :=
  [("grant_type", "authorization_code"),
   ("client_id", env.CLIENT_ID),
   ("client_secret", env.CLIENT_SECRET),
   ("redirect_uri", env.REDIRECT_URI),
   ("code", authorizationCode)]

/-- GET /auth/redirect: validate code and state, exchange the code at the
token endpoint, look the readKey up under readKey:state, store the token
bundle under tokens:readKey with a 300 second ttl and answer with the
confirmation page. -/
def redirectBranch (req : Request) (env : Env) (w : World) (st : Store) : HandlerResult :=
  let authorizationCode? := queryGet req.searchParams "code"
  let writeKey? := queryGet req.searchParams "state"
  if isFalsy authorizationCode? then
    { outcome := .ok
        { status := 400, body := some "Missing authorization code URL param", headers := [] }
      store := st, trace := [] }
  else if isFalsy writeKey? then
    { outcome := .ok
        { status := 400, body := some "Missing state URL param", headers := [] }
      store := st, trace := [] }
  else
    let authorizationCode := authorizationCode?.getD ""
    let writeKey := writeKey?.getD ""
    let tokenResponse := w.tokenResponse
    let tr0 := [Effect.providerPOST env.TOKEN_ENDPOINT (exchangeProof env authorizationCode)]
    if tokenResponse.status != 200 then
      { outcome := .ok
          { status := tokenResponse.status, body := some tokenResponse.statusText, headers := [] }
        store := st, trace := tr0 }
    else
      let readKey? := storeGet st ("readKey:" ++ writeKey)
      let tr1 := tr0 ++ [Effect.get ("readKey:" ++ writeKey)]
      if isFalsy readKey? then
        { outcome := .ok
            { status := 400, body := some "No read key found in storage", headers := [] }
          store := st, trace := tr1 }
      else
        let readKey := readKey?.getD ""
        match tokenResponse.body with
        | none =>
            { outcome := .error "Unexpected end of JSON input", store := st, trace := tr1 }
        | some tokens =>
            { outcome := .ok
                { status := 200
                  body := some (getHTMLTemplate
                    "Authentication successful! You can close this window and return to Framer.")
                  headers := [("Content-Type", "text/html")] }
              store := storePut st ("tokens:" ++ readKey) (Json.stringify tokens) (some 300)
              trace := tr1 ++ [Effect.put ("tokens:" ++ readKey) (Json.stringify tokens) (some 300)] }

/-- POST /auth/poll: validate readKey, fetch tokens:readKey, delete it and
return the bundle, or 404 when absent. -/
def pollBranch (req : Request) (env : Env) (st : Store) : HandlerResult :=
  let readKey? := queryGet req.searchParams "readKey"
  if isFalsy readKey? then
    { outcome := .ok
        { status := 400, body := some "Missing read key URL param", headers := [corsHeader env] }
      store := st, trace := [] }
  else
    let readKey := readKey?.getD ""
    let tokens? := storeGet st ("tokens:" ++ readKey)
    let tr0 := [Effect.get ("tokens:" ++ readKey)]
    if isFalsy tokens? then
      { outcome := .ok { status := 404, body := none, headers := [corsHeader env] }
        store := st, trace := tr0 }
    else
      { outcome := .ok
          { status := 200
            body := some (tokens?.getD "")
            headers := [("Content-Type", "application/json"), corsHeader env] }
        store := storeDelete st ("tokens:" ++ readKey)
        trace := tr0 ++ [Effect.delete ("tokens:" ++ readKey)] }

/-- The form body POSTed to TOKEN_ENDPOINT during a refresh exchange. -/
def refreshExchangeProof (env : Env) (refreshToken : String) : List (String × String) :=
  [("grant_type", "refresh_token"),
   ("client_id", env.CLIENT_ID),
   ("client_secret", env.CLIENT_SECRET),
   ("redirect_uri", env.REDIRECT_URI),
   ("refresh_token", refreshToken)]

/-- POST /auth/refresh: validate the code param (the refresh token),
exchange it at the token endpoint and return the new bundle; no store
interaction. -/
def refreshBranch (req : Request) (env : Env) (w : World) (st : Store) : HandlerResult :=
  let refreshToken? := queryGet req.searchParams "code"
  if isFalsy refreshToken? then
    { outcome := .ok
        { status := 400, body := some "Missing refresh token URL param", headers := [corsHeader env] }
      store := st, trace := [] }
  else
    let refreshToken := refreshToken?.getD ""
    let refreshResponse := w.tokenResponse
    let tr0 := [Effect.providerPOST env.TOKEN_ENDPOINT (refreshExchangeProof env refreshToken)]
    if refreshResponse.status != 200 then
      { outcome := .ok
          { status := refreshResponse.status
            body := some refreshResponse.statusText
            headers := [corsHeader env] }
        store := st, trace := tr0 }
    else
      match refreshResponse.body with
      | none => { outcome := .error "Unexpected end of JSON input", store := st, trace := tr0 }
      | some tokens =>
          { outcome := .ok
              { status := 200
                body := some (Json.stringify tokens)
                headers := [("Content-Type", "application/json"), corsHeader env] }
            store := st, trace := tr0 }

/-- handleRequest(request, env): the route dispatch of src/src/index.ts,
with the route guards taken verbatim (method check plus pathname
startsWith, except the exact-match health check). -/
def handleRequest (req : Request) (env : Env) (w : World) (st : Store) : HandlerResult :=
  if req.method == "POST" && startsWith req.pathname "/auth/authorize" then
    authorizeBranch env w st
  else if req.method == "GET" && startsWith req.pathname "/auth/redirect" then
    redirectBranch req env w st
  else if req.method == "POST" && startsWith req.pathname "/auth/poll" then
    pollBranch req env st
  else if req.method == "POST" && startsWith req.pathname "/auth/refresh" then
    refreshBranch req env w st
  else if req.method == "GET" && req.pathname == "/" then
    { outcome := .ok
        { status := 200, body := some "✅ OAuth Worker is up and running!", headers := [] }
      store := st, trace := [] }
  else
    { outcome := .ok
        { status := 404, body := some "Page not found", headers := [corsHeader env] }
      store := st, trace := [] }

/-- The exported fetch entry point: runs handleRequest and converts any
thrown error into a 500 response carrying the error message, with the CORS
header attached. -/
def fetch (req : Request) (env : Env) (w : World) (st : Store) : Response × Store × List Effect :=
  let r := handleRequest req env w st
  match r.outcome with
  | .ok resp => (resp, r.store, r.trace)
  | .error message =>
      ({ status := 500
         body := some ("😔 Internal error: " ++ message)
         headers := [corsHeader env] },
       r.store, r.trace)

/-- A concrete environment used by the closed witness runs. -/
def envEx : Env :=
  { CLIENT_ID := "cid"
    CLIENT_SECRET := "sec"
    REDIRECT_URI := "https://r.example/auth/redirect"
    SCOPE := "crm"
    AUTHORIZE_ENDPOINT := "https://p.example/authorize"
    TOKEN_ENDPOINT := "https://p.example/token"
    PLUGIN_URI := "https://plugin.example" }

/-- A concrete world whose token exchange succeeds with a small bundle. -/
def wOK : World :=
  { freshReadKey := "R1"
    freshWriteKey := "W1"
    tokenResponse :=
      { status := 200, statusText := "OK"
        body := some (Json.obj [("access_token", Json.str "tok")]) } }

/-- A concrete world whose token exchange fails with 401 Unauthorized. -/
def w401 : World :=
  { freshReadKey := "R1"
    freshWriteKey := "W1"
    tokenResponse := { status := 401, statusText := "Unauthorized", body := none } }

/-- A concrete world whose exchange returns 200 with a non-JSON body, so
that response.json() rejects. -/
def wBadJson : World :=
  { freshReadKey := "R1"
    freshWriteKey := "W1"
    tokenResponse := { status := 200, statusText := "OK", body := none } }

/-- Lookup immediately after a put of the same key sees that put. -/
theorem storeFind_storePut_self (st : Store) (k v : String) (t : Option Nat) :
    storeFind (storePut st k v t) k = some (v, t) := by
  simp [storePut, storeFind]

/-- Lookup of a key after its deletion finds nothing. -/
theorem storeGet_storeDelete_self (st : Store) (k : String) :
    storeGet (storeDelete st k) k = none := by
  induction st with
  | nil => rfl
  | cons e rest ih =>
      simp only [storeDelete]
      split
      · exact ih
      · next h => simpa [storeGet, storeFind, h] using ih

/-- Nat.toDigitsCore never shrinks the accumulator. -/
theorem toDigitsCore_length_le (b : Nat) (f : Nat) :
    ∀ (n : Nat) (ds : List Char), ds.length ≤ (Nat.toDigitsCore b f n ds).length := by
  induction f with
  | zero => intro n ds; simp [Nat.toDigitsCore]
  | succ f ih =>
      intro n ds
      simp only [Nat.toDigitsCore]
      split
      · simp
      · exact le_trans (by simp) (ih _ _)

/-- The decimal representation of a natural number is never empty. -/
theorem natRepr_ne_empty (n : Nat) : Nat.repr n ≠ "" := by
  intro h
  have h2 : Nat.toDigits 10 n = [] := congrArg String.data h
  have h3 : (1 : Nat) ≤ (Nat.toDigits 10 n).length := by
    show (1 : Nat) ≤ (Nat.toDigitsCore 10 (n + 1) n []).length
    simp only [Nat.toDigitsCore]
    split
    · simp
    · simpa using toDigitsCore_length_le 10 n (n / 10) [Nat.digitChar (n % 10)]
  rw [h2] at h3
  simp at h3

/-- The decimal representation of an integer is never empty. -/
theorem intToString_ne_empty (i : Int) : toString i ≠ "" := by
  cases i with
  | ofNat m => exact natRepr_ne_empty m
  | negSucc m =>
      intro h
      have h2 := congrArg String.length h
      rw [show toString (Int.negSucc m) = "-" ++ toString (m + 1) from rfl] at h2
      rw [String.length_append] at h2
      rw [show ("-" : String).length = 1 from rfl, show ("" : String).length = 0 from rfl] at h2
      omega

/-- JSON serialization never produces the empty string. -/
theorem stringify_ne_empty (j : Json) : Json.stringify j ≠ "" := by
  cases j with
  | null => simp [Json.stringify]
  | bool b => cases b <;> simp [Json.stringify]
  | num n => exact intToString_ne_empty n
  | str s =>
      intro h
      have h2 := congrArg String.length h
      simp only [Json.stringify, String.length_append] at h2
      rw [show ("\"" : String).length = 1 from rfl,
        show ("" : String).length = 0 from rfl] at h2
      omega
  | arr xs =>
      intro h
      have h2 := congrArg String.length h
      simp only [Json.stringify, String.length_append] at h2
      rw [show ("[" : String).length = 1 from rfl, show ("]" : String).length = 1 from rfl,
        show ("" : String).length = 0 from rfl] at h2
      omega
  | obj fs =>
      intro h
      have h2 := congrArg String.length h
      simp only [Json.stringify, String.length_append] at h2
      rw [show ("\x7b" : String).length = 1 from rfl, show ("\x7d" : String).length = 1 from rfl,
        show ("" : String).length = 0 from rfl] at h2
      omega

/-- A poll request: POST /auth/poll with the given readKey parameter. -/
def pollRequest (readKey : String) : Request :=
  { method := "POST", pathname := "/auth/poll", searchParams := [("readKey", readKey)] }

/-- A callback request: GET /auth/redirect with code and state parameters. -/
def redirectRequest (code state : String) : Request :=
  { method := "GET", pathname := "/auth/redirect"
    searchParams := [("code", code), ("state", state)] }

/-- A refresh request: POST /auth/refresh with the given query parameters. -/
def refreshRequest (q : List (String × String)) : Request :=
  { method := "POST", pathname := "/auth/refresh", searchParams := q }

/-- An initiation request: POST /auth/authorize with the given query. -/
def authorizeRequest (q : List (String × String)) : Request :=
  { method := "POST", pathname := "/auth/authorize", searchParams := q }

/-- A callback request with an arbitrary query. -/
def redirectRequestQ (q : List (String × String)) : Request :=
  { method := "GET", pathname := "/auth/redirect", searchParams := q }

/-- A poll request with an arbitrary query. -/
def pollRequestQ (q : List (String × String)) : Request :=
  { method := "POST", pathname := "/auth/poll", searchParams := q }

@[simp]
theorem isFalsy_none : isFalsy none = true := rfl

@[simp]
theorem isFalsy_some (s : String) : isFalsy (some s) = (s == "") := rfl

/-- Poll with a nonempty readKey whose bundle is absent: 404, store kept. -/
theorem pollBranch_missing (env : Env) (st : Store) (rk : String)
    (hrk : rk ≠ "") (htok : isFalsy (storeGet st ("tokens:" ++ rk)) = true) :
    pollBranch (pollRequest rk) env st =
      { outcome := .ok { status := 404, body := none, headers := [corsHeader env] }
        store := st, trace := [Effect.get ("tokens:" ++ rk)] } := by
  simp [pollBranch, pollRequest, queryGet, hrk, htok]

/-- Poll with a nonempty readKey whose bundle is present and nonempty:
deliver the bundle and delete the entry. -/
theorem pollBranch_deliver (env : Env) (st : Store) (rk s : String)
    (hrk : rk ≠ "") (hs : s ≠ "") (htok : storeGet st ("tokens:" ++ rk) = some s) :
    pollBranch (pollRequest rk) env st =
      { outcome := .ok
          { status := 200, body := some s
            headers := [("Content-Type", "application/json"), corsHeader env] }
        store := storeDelete st ("tokens:" ++ rk)
        trace := [Effect.get ("tokens:" ++ rk), Effect.delete ("tokens:" ++ rk)] } := by
  simp [pollBranch, pollRequest, queryGet, hrk, hs, htok]

/-- C1: if Poll(readKey) succeeds with a token bundle, the store entry
tokens:readKey is deleted by that poll, and any subsequent sequential Poll
with the same readKey returns 404 NotFound instead of the previous bundle,
so Poll never returns the same bundle twice under sequential calls. -/
theorem poll_at_most_once (env : Env) (w w2 : World) (st : Store) (rk : String)
    (resp : Response)
    (h : (handleRequest (pollRequest rk) env w st).outcome = .ok resp)
    (h200 : resp.status = 200) :
    storeGet (handleRequest (pollRequest rk) env w st).store ("tokens:" ++ rk) = none ∧
    (handleRequest (pollRequest rk) env w2
        (handleRequest (pollRequest rk) env w st).store).outcome =
      .ok { status := 404, body := none, headers := [corsHeader env] } := by
  have hdisp : ∀ (w3 : World) (st3 : Store),
      handleRequest (pollRequest rk) env w3 st3 = pollBranch (pollRequest rk) env st3 :=
    fun _ _ => rfl
  rw [hdisp] at h
  simp only [hdisp]
  by_cases hrk : rk = ""
  · subst hrk
    simp [pollBranch, pollRequest, queryGet] at h
    rw [← h] at h200
    simp at h200
  · by_cases htok : isFalsy (storeGet st ("tokens:" ++ rk)) = true
    · rw [pollBranch_missing env st rk hrk htok] at h
      simp at h
      rw [← h] at h200
      simp at h200
    · cases htok2 : storeGet st ("tokens:" ++ rk) with
      | none => rw [htok2] at htok; simp at htok
      | some s =>
          have hs : s ≠ "" := by
            rw [htok2] at htok
            simpa using htok
          rw [pollBranch_deliver env st rk s hrk hs htok2]
          have hdel : storeGet (storeDelete st ("tokens:" ++ rk)) ("tokens:" ++ rk) = none :=
            storeGet_storeDelete_self st ("tokens:" ++ rk)
          constructor
          · exact hdel
          · rw [pollBranch_missing env (storeDelete st ("tokens:" ++ rk)) rk hrk (by simp [hdel])]

/-- A store holding one deliverable bundle, for the closed witness runs. -/
def stPoll : Store := [{ key := "tokens:R1", value := "BUNDLE", ttl := some 300 }]

/-- Witness for C1: a concrete successful poll, after which the entry is
gone and the second poll answers 404. -/
theorem poll_at_most_once_witness :
    storeGet (handleRequest (pollRequest "R1") envEx wOK stPoll).store ("tokens:" ++ "R1") =
      none ∧
    (handleRequest (pollRequest "R1") envEx wOK
        (handleRequest (pollRequest "R1") envEx wOK stPoll).store).outcome =
      .ok { status := 404, body := none, headers := [corsHeader envEx] } :=
  poll_at_most_once envEx wOK wOK stPoll "R1"
    { status := 200, body := some "BUNDLE"
      headers := [("Content-Type", "application/json"), corsHeader envEx] }
    rfl rfl

/-- Callback with code and state present but a failing exchange: the
upstream status and statusText are passed through, the store is untouched,
and the only effect is the provider POST. -/
theorem redirectBranch_exchange_fail (env : Env) (w : World) (st : Store) (c s : String)
    (hc : c ≠ "") (hs : s ≠ "") (hst : w.tokenResponse.status ≠ 200) :
    redirectBranch (redirectRequest c s) env w st =
      { outcome := .ok
          { status := w.tokenResponse.status
            body := some w.tokenResponse.statusText, headers := [] }
        store := st
        trace := [Effect.providerPOST env.TOKEN_ENDPOINT (exchangeProof env c)] } := by
  simp [redirectBranch, redirectRequest, queryGet, hc, hs, hst]

/-- Callback with code and state present, a successful exchange, but no
ticket under readKey:state: 400, store untouched, and the provider was
already contacted before the lookup. -/
theorem redirectBranch_no_ticket (env : Env) (w : World) (st : Store) (c s : String)
    (hc : c ≠ "") (hs : s ≠ "") (hst : w.tokenResponse.status = 200)
    (hmiss : isFalsy (storeGet st ("readKey:" ++ s)) = true) :
    redirectBranch (redirectRequest c s) env w st =
      { outcome := .ok
          { status := 400, body := some "No read key found in storage", headers := [] }
        store := st
        trace := [Effect.providerPOST env.TOKEN_ENDPOINT (exchangeProof env c),
          Effect.get ("readKey:" ++ s)] } := by
  simp [redirectBranch, redirectRequest, queryGet, hc, hs, hst, hmiss]

/-- Callback with code and state present, a successful exchange with JSON
body, and a ticket present: the bundle is stored under tokens:readKey with
a 300 second ttl and the confirmation page is returned. -/
theorem redirectBranch_success (env : Env) (w : World) (st : Store) (c s rk : String)
    (j : Json) (hc : c ≠ "") (hs : s ≠ "") (hst : w.tokenResponse.status = 200)
    (hbody : w.tokenResponse.body = some j)
    (hfind : storeGet st ("readKey:" ++ s) = some rk) (hrk : rk ≠ "") :
    redirectBranch (redirectRequest c s) env w st =
      { outcome := .ok
          { status := 200
            body := some (getHTMLTemplate
              "Authentication successful! You can close this window and return to Framer.")
            headers := [("Content-Type", "text/html")] }
        store := storePut st ("tokens:" ++ rk) (Json.stringify j) (some 300)
        trace := [Effect.providerPOST env.TOKEN_ENDPOINT (exchangeProof env c),
          Effect.get ("readKey:" ++ s),
          Effect.put ("tokens:" ++ rk) (Json.stringify j) (some 300)] } := by
  simp [redirectBranch, redirectRequest, queryGet, hc, hs, hst, hbody, hfind, hrk]

/-- Callback with code, state, a 200 exchange and a ticket present, but a
non-JSON exchange body: response.json() rejects after the lookup. -/
theorem redirectBranch_json_error (env : Env) (w : World) (st : Store) (c s rk : String)
    (hc : c ≠ "") (hs : s ≠ "") (hst : w.tokenResponse.status = 200)
    (hbody : w.tokenResponse.body = none)
    (hfind : storeGet st ("readKey:" ++ s) = some rk) (hrk : rk ≠ "") :
    redirectBranch (redirectRequest c s) env w st =
      { outcome := .error "Unexpected end of JSON input"
        store := st
        trace := [Effect.providerPOST env.TOKEN_ENDPOINT (exchangeProof env c),
          Effect.get ("readKey:" ++ s)] } := by
  simp [redirectBranch, redirectRequest, queryGet, hc, hs, hst, hbody, hfind, hrk]

/-- An empty store, for the closed counterexample runs. -/
def stEmpty : Store := []

/-- A store holding the ticket readKey:W1 with value R1, for witnesses. -/
def stTicket : Store := [{ key := "readKey:W1", value := "R1", ttl := some 60 }]

/-- Counterexample to C2: with no ticket stored for state W1, a callback
with code and state present still POSTs to the provider token endpoint,
so the exchange is not gated on the ticket lookup. -/
theorem callback_contacts_provider_without_ticket :
    storeGet stEmpty ("readKey:" ++ "W1") = none ∧
    Effect.providerPOST envEx.TOKEN_ENDPOINT (exchangeProof envEx "abc") ∈
      (handleRequest (redirectRequest "abc" "W1") envEx wOK stEmpty).trace ∧
    (handleRequest (redirectRequest "abc" "W1") envEx wOK stEmpty).outcome =
      .ok { status := 400, body := some "No read key found in storage", headers := [] } := by
  refine ⟨rfl, ?_, rfl⟩
  decide

/-- C2 (amended): in the callback, the token-exchange POST happens before
the ticket lookup — the provider is contacted even when the ticket is
absent; when the exchange fails (non-200) the store is never touched; and
the store-write of tokens:readKey happens only after a status-200 exchange
and a successful ticket lookup. -/
theorem callback_exchange_before_lookup (env : Env) (w : World) (st : Store) (c s : String)
    (hc : c ≠ "") (hs : s ≠ "") :
    (∃ rest, (handleRequest (redirectRequest c s) env w st).trace =
        Effect.providerPOST env.TOKEN_ENDPOINT (exchangeProof env c) :: rest) ∧
    (w.tokenResponse.status ≠ 200 →
      (handleRequest (redirectRequest c s) env w st).store = st ∧
      (handleRequest (redirectRequest c s) env w st).trace =
        [Effect.providerPOST env.TOKEN_ENDPOINT (exchangeProof env c)]) ∧
    (∀ k v t, Effect.put k v t ∈ (handleRequest (redirectRequest c s) env w st).trace →
      w.tokenResponse.status = 200 ∧ isFalsy (storeGet st ("readKey:" ++ s)) = false) := by
  have hd : handleRequest (redirectRequest c s) env w st =
      redirectBranch (redirectRequest c s) env w st := rfl
  simp only [hd]
  by_cases hst : w.tokenResponse.status = 200
  · by_cases hmiss : isFalsy (storeGet st ("readKey:" ++ s)) = true
    · rw [redirectBranch_no_ticket env w st c s hc hs hst hmiss]
      refine ⟨⟨[Effect.get ("readKey:" ++ s)], rfl⟩, fun hne => absurd hst hne, ?_⟩
      intro k v t hmem
      simp at hmem
    · cases hfind : storeGet st ("readKey:" ++ s) with
      | none => rw [hfind] at hmiss; simp at hmiss
      | some rk =>
          have hrk : rk ≠ "" := by
            rw [hfind] at hmiss
            simpa using hmiss
          cases hbody : w.tokenResponse.body with
          | none =>
              rw [redirectBranch_json_error env w st c s rk hc hs hst hbody hfind hrk]
              refine ⟨⟨[Effect.get ("readKey:" ++ s)], rfl⟩, fun hne => absurd hst hne, ?_⟩
              intro k v t hmem
              simp at hmem
          | some j =>
              rw [redirectBranch_success env w st c s rk j hc hs hst hbody hfind hrk]
              refine ⟨⟨[Effect.get ("readKey:" ++ s),
                Effect.put ("tokens:" ++ rk) (Json.stringify j) (some 300)], rfl⟩,
                fun hne => absurd hst hne, ?_⟩
              intro k v t _
              refine ⟨hst, ?_⟩
              simpa using hrk
  · rw [redirectBranch_exchange_fail env w st c s hc hs hst]
    exact ⟨⟨[], rfl⟩, fun _ => ⟨rfl, rfl⟩, fun k v t hmem => by simp at hmem⟩

/-- Witness for the amended C2, at a concrete callback with a stored
ticket and a succeeding exchange. -/
theorem callback_exchange_before_lookup_witness :
    (∃ rest, (handleRequest (redirectRequest "abc" "W1") envEx wOK stTicket).trace =
        Effect.providerPOST envEx.TOKEN_ENDPOINT (exchangeProof envEx "abc") :: rest) ∧
    (wOK.tokenResponse.status ≠ 200 →
      (handleRequest (redirectRequest "abc" "W1") envEx wOK stTicket).store = stTicket ∧
      (handleRequest (redirectRequest "abc" "W1") envEx wOK stTicket).trace =
        [Effect.providerPOST envEx.TOKEN_ENDPOINT (exchangeProof envEx "abc")]) ∧
    (∀ k v t, Effect.put k v t ∈
        (handleRequest (redirectRequest "abc" "W1") envEx wOK stTicket).trace →
      wOK.tokenResponse.status = 200 ∧
      isFalsy (storeGet stTicket ("readKey:" ++ "W1")) = false) :=
  callback_exchange_before_lookup envEx wOK stTicket "abc" "W1" (by decide) (by decide)

/-- C3: when the ticket readKey:state resolves to readKey and the exchange
succeeds with JSON body j, a poll after the callback returns exactly the
stored serialization of j, and a second poll returns 404 NotFound. -/
theorem callback_poll_round_trip (env : Env) (w w1 w2 : World) (st : Store)
    (c s rk : String) (j : Json)
    (hc : c ≠ "") (hs : s ≠ "") (hrk : rk ≠ "")
    (hst : w.tokenResponse.status = 200) (hbody : w.tokenResponse.body = some j)
    (hfind : storeGet st ("readKey:" ++ s) = some rk) :
    (handleRequest (pollRequest rk) env w1
        (handleRequest (redirectRequest c s) env w st).store).outcome =
      .ok { status := 200, body := some (Json.stringify j)
            headers := [("Content-Type", "application/json"), corsHeader env] } ∧
    (handleRequest (pollRequest rk) env w2
        (handleRequest (pollRequest rk) env w1
          (handleRequest (redirectRequest c s) env w st).store).store).outcome =
      .ok { status := 404, body := none, headers := [corsHeader env] } := by
  have hd : handleRequest (redirectRequest c s) env w st =
      redirectBranch (redirectRequest c s) env w st := rfl
  have hdp : ∀ (w3 : World) (st3 : Store),
      handleRequest (pollRequest rk) env w3 st3 = pollBranch (pollRequest rk) env st3 :=
    fun _ _ => rfl
  simp only [hd, hdp]
  rw [redirectBranch_success env w st c s rk j hc hs hst hbody hfind hrk]
  have hget : storeGet (storePut st ("tokens:" ++ rk) (Json.stringify j) (some 300))
      ("tokens:" ++ rk) = some (Json.stringify j) := by
    simp [storeGet, storeFind_storePut_self]
  rw [pollBranch_deliver env _ rk (Json.stringify j) hrk (stringify_ne_empty j) hget]
  have hdel : storeGet
      (storeDelete (storePut st ("tokens:" ++ rk) (Json.stringify j) (some 300))
        ("tokens:" ++ rk)) ("tokens:" ++ rk) = none :=
    storeGet_storeDelete_self _ _
  rw [pollBranch_missing env _ rk hrk (by simp [hdel])]
  exact ⟨rfl, rfl⟩

/-- Witness for C3: the concrete end-to-end run of the spec example. -/
theorem callback_poll_round_trip_witness :
    (handleRequest (pollRequest "R1") envEx wOK
        (handleRequest (redirectRequest "abc" "W1") envEx wOK stTicket).store).outcome =
      .ok { status := 200
            body := some (Json.stringify (Json.obj [("access_token", Json.str "tok")]))
            headers := [("Content-Type", "application/json"), corsHeader envEx] } ∧
    (handleRequest (pollRequest "R1") envEx wOK
        (handleRequest (pollRequest "R1") envEx wOK
          (handleRequest (redirectRequest "abc" "W1") envEx wOK stTicket).store).store).outcome =
      .ok { status := 404, body := none, headers := [corsHeader envEx] } :=
  callback_poll_round_trip envEx wOK wOK wOK stTicket "abc" "W1" "R1"
    (Json.obj [("access_token", Json.str "tok")])
    (by decide) (by decide) (by decide) rfl rfl rfl

/-- C4: a missing required parameter yields a 400 before any other effect:
the callback with no code (or no state), the poll with no readKey, and the
refresh with no code all answer 400 with the store untouched and an empty
effect trace. -/
theorem missing_parameter_400 (env : Env) (w : World) (st : Store)
    (q : List (String × String)) :
    (queryGet q "code" = none →
      handleRequest (redirectRequestQ q) env w st =
        { outcome := .ok
            { status := 400, body := some "Missing authorization code URL param"
              headers := [] }
          store := st, trace := [] }) ∧
    (queryGet q "state" = none →
      (handleRequest (redirectRequestQ q) env w st).store = st ∧
      (handleRequest (redirectRequestQ q) env w st).trace = [] ∧
      ∃ resp, (handleRequest (redirectRequestQ q) env w st).outcome = .ok resp ∧
        resp.status = 400) ∧
    (queryGet q "readKey" = none →
      handleRequest (pollRequestQ q) env w st =
        { outcome := .ok
            { status := 400, body := some "Missing read key URL param"
              headers := [corsHeader env] }
          store := st, trace := [] }) ∧
    (queryGet q "code" = none →
      handleRequest (refreshRequest q) env w st =
        { outcome := .ok
            { status := 400, body := some "Missing refresh token URL param"
              headers := [corsHeader env] }
          store := st, trace := [] }) := by
  have hdr : handleRequest (redirectRequestQ q) env w st =
      redirectBranch (redirectRequestQ q) env w st := rfl
  have hdp : handleRequest (pollRequestQ q) env w st =
      pollBranch (pollRequestQ q) env st := rfl
  have hdf : handleRequest (refreshRequest q) env w st =
      refreshBranch (refreshRequest q) env w st := rfl
  refine ⟨?_, ?_, ?_, ?_⟩
  · intro h
    rw [hdr]
    simp [redirectBranch, redirectRequestQ, h]
  · intro h
    rw [hdr]
    by_cases hcode : isFalsy (queryGet q "code") = true
    · simp [redirectBranch, redirectRequestQ, hcode]
    · simp only [Bool.not_eq_true] at hcode
      simp [redirectBranch, redirectRequestQ, hcode, h]
  · intro h
    rw [hdp]
    simp [pollBranch, pollRequestQ, h]
  · intro h
    rw [hdf]
    simp [refreshBranch, refreshRequest, h]

/-- Witness for C4: the three endpoints called with no query parameters at
all answer 400 with the store untouched. -/
theorem missing_parameter_400_witness :
    (handleRequest (redirectRequestQ []) envEx wOK stEmpty =
      { outcome := .ok
          { status := 400, body := some "Missing authorization code URL param"
            headers := [] }
        store := stEmpty, trace := [] }) ∧
    (handleRequest (pollRequestQ []) envEx wOK stEmpty =
      { outcome := .ok
          { status := 400, body := some "Missing read key URL param"
            headers := [corsHeader envEx] }
        store := stEmpty, trace := [] }) ∧
    (handleRequest (refreshRequest []) envEx wOK stEmpty =
      { outcome := .ok
          { status := 400, body := some "Missing refresh token URL param"
            headers := [corsHeader envEx] }
        store := stEmpty, trace := [] }) :=
  ⟨(missing_parameter_400 envEx wOK stEmpty []).1 rfl,
   (missing_parameter_400 envEx wOK stEmpty []).2.2.1 rfl,
   (missing_parameter_400 envEx wOK stEmpty []).2.2.2 rfl⟩

/-- Refresh with a nonempty refresh token and a failing exchange: the
upstream status and statusText are passed through, with the CORS header,
the store untouched, and the provider POST as the only effect. -/
theorem refreshBranch_exchange_fail (env : Env) (w : World) (st : Store) (rt : String)
    (hrt : rt ≠ "") (hst : w.tokenResponse.status ≠ 200) :
    refreshBranch (refreshRequest [("code", rt)]) env w st =
      { outcome := .ok
          { status := w.tokenResponse.status
            body := some w.tokenResponse.statusText, headers := [corsHeader env] }
        store := st
        trace := [Effect.providerPOST env.TOKEN_ENDPOINT (refreshExchangeProof env rt)] } := by
  simp [refreshBranch, refreshRequest, queryGet, hrt, hst]

/-- C5: when the token endpoint answers with a status other than 200, both
the callback and the refresh surface that status with the upstream reason
(statusText) as the body, and no token bundle is stored: the store is
unchanged and the only effect is the provider POST. -/
theorem upstream_failure_passthrough (env : Env) (w : World) (st : Store)
    (c s rt : String) (hc : c ≠ "") (hs : s ≠ "") (hrt : rt ≠ "")
    (hst : w.tokenResponse.status ≠ 200) :
    handleRequest (redirectRequest c s) env w st =
      { outcome := .ok
          { status := w.tokenResponse.status
            body := some w.tokenResponse.statusText, headers := [] }
        store := st
        trace := [Effect.providerPOST env.TOKEN_ENDPOINT (exchangeProof env c)] } ∧
    handleRequest (refreshRequest [("code", rt)]) env w st =
      { outcome := .ok
          { status := w.tokenResponse.status
            body := some w.tokenResponse.statusText, headers := [corsHeader env] }
        store := st
        trace := [Effect.providerPOST env.TOKEN_ENDPOINT (refreshExchangeProof env rt)] } := by
  constructor
  · rw [show handleRequest (redirectRequest c s) env w st =
        redirectBranch (redirectRequest c s) env w st from rfl]
    exact redirectBranch_exchange_fail env w st c s hc hs hst
  · rw [show handleRequest (refreshRequest [("code", rt)]) env w st =
        refreshBranch (refreshRequest [("code", rt)]) env w st from rfl]
    exact refreshBranch_exchange_fail env w st rt hrt hst

/-- Witness for C5: a concrete 401 Unauthorized exchange is surfaced as
status 401 with reason Unauthorized by both endpoints, with no store
write. -/
theorem upstream_failure_passthrough_witness :
    handleRequest (redirectRequest "abc" "W1") envEx w401 stTicket =
      { outcome := .ok
          { status := w401.tokenResponse.status
            body := some w401.tokenResponse.statusText, headers := [] }
        store := stTicket
        trace := [Effect.providerPOST envEx.TOKEN_ENDPOINT (exchangeProof envEx "abc")] } ∧
    handleRequest (refreshRequest [("code", "rt")]) envEx w401 stTicket =
      { outcome := .ok
          { status := w401.tokenResponse.status
            body := some w401.tokenResponse.statusText, headers := [corsHeader envEx] }
        store := stTicket
        trace := [Effect.providerPOST envEx.TOKEN_ENDPOINT
          (refreshExchangeProof envEx "rt")] } :=
  upstream_failure_passthrough envEx w401 stTicket "abc" "W1" "rt"
    (by decide) (by decide) (by decide) (by decide)

/-- C6: every initiation answers 200 with a JSON body holding the
authorize URL built from client_id, redirect_uri, scope and state equal to
the fresh writeKey, together with the fresh readKey, and afterwards the
store maps readKey:writeKey to that readKey with a 60 second ttl. -/
theorem initiate_postcondition (env : Env) (w : World) (st : Store)
    (q : List (String × String)) :
    (handleRequest (authorizeRequest q) env w st).outcome =
      .ok { status := 200
            body := some (Json.stringify (Json.obj
              [("url", Json.str (authorizeUrl env w.freshWriteKey)),
               ("readKey", Json.str w.freshReadKey)]))
            headers := [("Content-Type", "application/json"), corsHeader env] } ∧
    ("client_id", env.CLIENT_ID) ∈ authorizeParams env w.freshWriteKey ∧
    ("redirect_uri", env.REDIRECT_URI) ∈ authorizeParams env w.freshWriteKey ∧
    ("scope", env.SCOPE) ∈ authorizeParams env w.freshWriteKey ∧
    ("state", w.freshWriteKey) ∈ authorizeParams env w.freshWriteKey ∧
    storeFind (handleRequest (authorizeRequest q) env w st).store
        ("readKey:" ++ w.freshWriteKey) =
      some (w.freshReadKey, some 60) := by
  have hd : handleRequest (authorizeRequest q) env w st = authorizeBranch env w st := rfl
  simp only [hd]
  refine ⟨rfl, ?_, ?_, ?_, ?_, ?_⟩
  · simp [authorizeParams]
  · simp [authorizeParams]
  · simp [authorizeParams]
  · simp [authorizeParams]
  · exact storeFind_storePut_self st ("readKey:" ++ w.freshWriteKey) w.freshReadKey (some 60)

/-- Every initiation response carries the CORS header. -/
theorem authorizeBranch_cors (env : Env) (w : World) (st : Store) (resp : Response)
    (h : (authorizeBranch env w st).outcome = .ok resp) :
    corsHeader env ∈ resp.headers := by
  simp only [authorizeBranch, Except.ok.injEq] at h
  rw [← h]
  simp

/-- Every poll response carries the CORS header. -/
theorem pollBranch_cors (req : Request) (env : Env) (st : Store) (resp : Response)
    (h : (pollBranch req env st).outcome = .ok resp) :
    corsHeader env ∈ resp.headers := by
  simp only [pollBranch] at h
  split at h
  · simp only [Except.ok.injEq] at h
    rw [← h]
    simp
  · split at h
    · simp only [Except.ok.injEq] at h
      rw [← h]
      simp
    · simp only [Except.ok.injEq] at h
      rw [← h]
      simp

/-- Every refresh response carries the CORS header. -/
theorem refreshBranch_cors (req : Request) (env : Env) (w : World) (st : Store)
    (resp : Response) (h : (refreshBranch req env w st).outcome = .ok resp) :
    corsHeader env ∈ resp.headers := by
  simp only [refreshBranch] at h
  split at h
  · simp only [Except.ok.injEq] at h
    rw [← h]
    simp
  · split at h
    · simp only [Except.ok.injEq] at h
      rw [← h]
      simp
    · split at h
      · exact absurd h (by simp)
      · simp only [Except.ok.injEq] at h
        rw [← h]
        simp

/-- Counterexample to C7: the callback with a missing code answers 400
with an empty header list, so not every non-health response carries the
Access-Control-Allow-Origin header. -/
theorem redirect_response_lacks_cors :
    (handleRequest (redirectRequestQ []) envEx wOK stEmpty).outcome =
      .ok { status := 400, body := some "Missing authorization code URL param"
            headers := [] } ∧
    corsHeader envEx ∉
      ({ status := 400, body := some "Missing authorization code URL param"
         headers := [] } : Response).headers := by
  exact ⟨rfl, by decide⟩

/-- C7 (amended): every response the handler produces carries the CORS
header Access-Control-Allow-Origin set to PLUGIN_URI, except the root
health check and every response of the /auth/redirect path. -/
theorem cors_on_all_but_redirect_and_health (req : Request) (env : Env) (w : World)
    (st : Store) (resp : Response)
    (hnr : ¬(req.method = "GET" ∧ startsWith req.pathname "/auth/redirect" = true))
    (hnh : ¬(req.method = "GET" ∧ req.pathname = "/"))
    (h : (handleRequest req env w st).outcome = .ok resp) :
    corsHeader env ∈ resp.headers := by
  unfold handleRequest at h
  split at h
  · exact authorizeBranch_cors env w st resp h
  · split at h
    · next hcond =>
        refine absurd ?_ hnr
        simpa [Bool.and_eq_true] using hcond
    · split at h
      · exact pollBranch_cors req env st resp h
      · split at h
        · exact refreshBranch_cors req env w st resp h
        · split at h
          · next hcond =>
              refine absurd ?_ hnh
              simpa [Bool.and_eq_true] using hcond
          · simp only [Except.ok.injEq] at h
            rw [← h]
            simp

/-- Witness for the amended C7: a concrete non-redirect response (a poll
with a missing parameter) carries the CORS header. -/
theorem cors_on_all_but_redirect_and_health_witness :
    corsHeader envEx ∈
      ({ status := 400, body := some "Missing read key URL param"
         headers := [corsHeader envEx] } : Response).headers :=
  cors_on_all_but_redirect_and_health (pollRequestQ []) envEx wOK stEmpty
    { status := 400, body := some "Missing read key URL param"
      headers := [corsHeader envEx] }
    (by decide) (by decide) rfl

/-- C8: refresh is stateless with respect to the key-value store — for
every refresh request, with any query and any upstream outcome, the store
is unchanged and no store operation appears in the effect trace. -/
theorem refresh_stateless (env : Env) (w : World) (st : Store)
    (q : List (String × String)) :
    (handleRequest (refreshRequest q) env w st).store = st ∧
    ∀ e ∈ (handleRequest (refreshRequest q) env w st).trace, e.isStoreOp = false := by
  have hd : handleRequest (refreshRequest q) env w st =
      refreshBranch (refreshRequest q) env w st := rfl
  rw [hd]
  simp only [refreshBranch]
  split
  · exact ⟨rfl, by simp⟩
  · split
    · refine ⟨rfl, ?_⟩
      intro e he
      simp at he
      rw [he]
      rfl
    · split
      · refine ⟨rfl, ?_⟩
        intro e he
        simp at he
        rw [he]
        rfl
      · refine ⟨rfl, ?_⟩
        intro e he
        simp at he
        rw [he]
        rfl

/-- C9: whenever the inner handler throws, the fetch entry point catches
the error and answers 500 with a body carrying the error message and with
the CORS header attached. -/
theorem error_boundary_500 (req : Request) (env : Env) (w : World) (st : Store)
    (e : String) (h : (handleRequest req env w st).outcome = .error e) :
    (fetch req env w st).1 =
      { status := 500, body := some ("😔 Internal error: " ++ e)
        headers := [corsHeader env] } := by
  simp only [fetch, h]

/-- Witness for C9: a refresh whose 200 exchange carries a non-JSON body
makes response.json() throw, and fetch answers 500 with the message and
the CORS header. -/
theorem error_boundary_500_witness :
    (fetch (refreshRequest [("code", "rt")]) envEx wBadJson stEmpty).1 =
      { status := 500
        body := some ("😔 Internal error: " ++ "Unexpected end of JSON input")
        headers := [corsHeader envEx] } :=
  error_boundary_500 (refreshRequest [("code", "rt")]) envEx wBadJson stEmpty
    "Unexpected end of JSON input" rfl

/-- C10: routing is by path prefix, not exact path — any POST whose
pathname merely starts with /auth/authorize is handled as an initiation,
and likewise for the redirect (GET), poll (POST) and refresh (POST)
prefixes; the health check alone requires the exact path /. -/
theorem prefix_based_routing (req : Request) (env : Env) (w : World) (st : Store) :
    (req.method = "POST" → startsWith req.pathname "/auth/authorize" = true →
      handleRequest req env w st = authorizeBranch env w st) ∧
    (req.method = "GET" → startsWith req.pathname "/auth/redirect" = true →
      handleRequest req env w st = redirectBranch req env w st) ∧
    (req.method = "POST" → startsWith req.pathname "/auth/poll" = true →
      startsWith req.pathname "/auth/authorize" = false →
      handleRequest req env w st = pollBranch req env st) ∧
    (req.method = "POST" → startsWith req.pathname "/auth/refresh" = true →
      startsWith req.pathname "/auth/authorize" = false →
      startsWith req.pathname "/auth/poll" = false →
      handleRequest req env w st = refreshBranch req env w st) ∧
    (req.method = "GET" → startsWith req.pathname "/auth/redirect" = false →
      req.pathname ≠ "/" →
      handleRequest req env w st =
        { outcome := .ok
            { status := 404, body := some "Page not found", headers := [corsHeader env] }
          store := st, trace := [] }) := by
  refine ⟨?_, ?_, ?_, ?_, ?_⟩
  · intro hm hp
    simp [handleRequest, hm, hp]
  · intro hm hp
    simp [handleRequest, hm, hp]
  · intro hm hp hna
    simp [handleRequest, hm, hp, hna]
  · intro hm hp hna hnp
    simp [handleRequest, hm, hp, hna, hnp]
  · intro hm hnr hne
    simp [handleRequest, hm, hnr, hne]

/-- A POST request on a path that merely extends the authorize prefix. -/
def reqAuthXYZ : Request :=
  { method := "POST", pathname := "/auth/authorizeXYZ", searchParams := [] }

/-- A GET request on a path that merely extends the redirect prefix. -/
def reqRedirectExtra : Request :=
  { method := "GET", pathname := "/auth/redirect/extra", searchParams := [] }

/-- A POST request on a path that merely extends the poll prefix. -/
def reqPollAbc : Request :=
  { method := "POST", pathname := "/auth/pollabc", searchParams := [] }

/-- A POST request on a path that merely extends the refresh prefix. -/
def reqRefreshX : Request :=
  { method := "POST", pathname := "/auth/refresh/x", searchParams := [] }

/-- A GET request on a non-root path off every known prefix. -/
def reqHealth : Request :=
  { method := "GET", pathname := "/health", searchParams := [] }

/-- Witness for C10: concrete odd paths behind each prefix are routed to
the corresponding operations, and a GET off the known prefixes that is
not exactly the root is a 404, not the health check. -/
theorem prefix_based_routing_witness :
    (handleRequest reqAuthXYZ envEx wOK stEmpty = authorizeBranch envEx wOK stEmpty) ∧
    (handleRequest reqRedirectExtra envEx wOK stEmpty =
      redirectBranch reqRedirectExtra envEx wOK stEmpty) ∧
    (handleRequest reqPollAbc envEx wOK stEmpty = pollBranch reqPollAbc envEx stEmpty) ∧
    (handleRequest reqRefreshX envEx wOK stEmpty =
      refreshBranch reqRefreshX envEx wOK stEmpty) ∧
    (handleRequest reqHealth envEx wOK stEmpty =
      { outcome := .ok
          { status := 404, body := some "Page not found", headers := [corsHeader envEx] }
        store := stEmpty, trace := [] }) :=
  ⟨(prefix_based_routing reqAuthXYZ envEx wOK stEmpty).1 rfl (by decide),
   (prefix_based_routing reqRedirectExtra envEx wOK stEmpty).2.1 rfl (by decide),
   (prefix_based_routing reqPollAbc envEx wOK stEmpty).2.2.1 rfl (by decide) (by decide),
   (prefix_based_routing reqRefreshX envEx wOK stEmpty).2.2.2.1 rfl
     (by decide) (by decide) (by decide),
   (prefix_based_routing reqHealth envEx wOK stEmpty).2.2.2.2 rfl
     (by decide) (by decide)⟩

end FramerHubspot
